import Mathlib

/-!
Verification of the binary packet decoder in `binary_parser.py`.

The decoder is embedded shallowly:
* a Python `bytes` object is a `List Nat` (each element of a real bytes
  object is `< 256`; claims that need this carry it as a hypothesis);
* Python indexing `data[i]`, which raises `IndexError` out of range, is
  `Option`-valued;
* Python slicing `data[a:b]` truncates and never faults;
* `struct.unpack(">H", s)` requires exactly two bytes, else `struct.error`;
* `parse_packet` returns a `ParseResult` separating the categorized
  `ParsingError` outcomes from uncategorized faults (`IndexError`,
  `struct.error`) and from the `TypeError` raised for non-bytes input,
  which the specification's error taxonomy names `InvalidInput`.
-/

/-- A Python `bytes` value, one natural number per byte. -/
abbrev Bytes := List Nat

/-- `MAGIC_NUMBER = 0xCAFE` from `binary_parser.py`. -/
def MAGIC_NUMBER : Nat := 0xCAFE

/-- `MAX_PAYLOAD_SIZE = 1024` from `binary_parser.py`; the source comments
out the check that would consult it. -/
def MAX_PAYLOAD_SIZE : Nat := 1024

/-- Python `data[i]` on a bytes object: `none` models `IndexError`. -/
def pyIndex (data : Bytes) (i : Nat) : Option Nat := data[i]?

/-- Python `data[a:b]` for `0 ≤ a ≤ b`: slicing truncates, never faults. -/
def pySlice (data : Bytes) (a b : Nat) : Bytes := (data.drop a).take (b - a)

/-- `struct.unpack(">H", s)[0]`: big-endian unsigned 16-bit read; `none`
models `struct.error` when `s` is not exactly two bytes long. -/
def unpackBEu16 : Bytes → Option Nat
  | [b0, b1] => some (256 * b0 + b1)
  | _ => none

/-- `calculate_checksum` from `binary_parser.py`: XOR-fold with
accumulator starting at 0. -/
def calculate_checksum (data_bytes : Bytes) : Nat :=
  data_bytes.foldl (fun checksum byte => checksum ^^^ byte) 0

/-- The dictionary returned by a successful `parse_packet`; the
`command_code` key is present only for CMD packets. -/
structure Packet where
  magic : Nat
  type : Nat
  payload_len : Nat
  payload : Bytes
  checksum : Nat
  command_code : Option Nat
deriving DecidableEq

/-- The categorized `ParsingError` messages of `parse_packet`, one
constructor per `raise ParsingError(...)` site, carrying the data the
source interpolates into the message. -/
inductive PError
  | insufficientHeader (available : Nat)
  | invalidMagic (got : Nat)
  | unknownType (got : Nat)
  | insufficientBody (expected available : Nat)
  | checksumMismatch (expected actual : Nat)
  | emptyCommandPayload
deriving DecidableEq

/-- Uncategorized faults the embedding tracks: an out-of-range index and
a failed `struct.unpack`. -/
inductive PyFault
  | indexError
  | structError
deriving DecidableEq

/-- The dynamically typed argument of `parse_packet`: either a bytes
object or anything else. -/
inductive PyInput
  | bytes (data : Bytes)
  | nonBytes

/-- Outcome of `parse_packet`: a packet, a categorized `ParsingError`,
the `TypeError` raised for non-bytes input (the specification's
`InvalidInput` kind), or an uncategorized fault. -/
inductive ParseResult
  | ok (p : Packet)
  | parsingError (e : PError)
  | invalidInput
  | fault (f : PyFault)
deriving DecidableEq

/-- `parse_packet` from `binary_parser.py`, line by line.  The
`isinstance` check is the match on `PyInput`; each slice, index and
unpack mirrors the source expression at the same step. -/
def parse_packet : PyInput → ParseResult
  | .nonBytes => .invalidInput
  | .bytes data =>
    if data.length < 5 then
      .parsingError (.insufficientHeader data.length)
    else
      match unpackBEu16 (pySlice data 0 2) with
      | none => .fault .structError
      | some magic =>
        if magic ≠ MAGIC_NUMBER then
          .parsingError (.invalidMagic magic)
        else
          match pyIndex data 2 with
          | none => .fault .indexError
          | some packet_type =>
            if packet_type ∉ ([0x01, 0x02, 0x03] : List Nat) then
              .parsingError (.unknownType packet_type)
            else
              match unpackBEu16 (pySlice data 3 5) with
              | none => .fault .structError
              | some payload_len =>
                let expected_total_len := 2 + 1 + 2 + payload_len + 1
                if data.length < expected_total_len then
                  .parsingError (.insufficientBody expected_total_len data.length)
                else
                  let payload_start := 5
                  let payload_end := payload_start + payload_len
                  let payload := pySlice data payload_start payload_end
                  let expected_checksum := calculate_checksum (pySlice data 0 payload_end)
                  match pyIndex data payload_end with
                  | none => .fault .indexError
                  | some actual_checksum =>
                    if expected_checksum ≠ actual_checksum then
                      .parsingError (.checksumMismatch expected_checksum actual_checksum)
                    else
                      let result : Packet :=
                        ⟨magic, packet_type, payload_len, payload, actual_checksum, none⟩
                      if packet_type = 0x02 then
                        if payload_len = 0 ∨ payload.length < 1 then
                          .parsingError .emptyCommandPayload
                        else
                          match pyIndex payload 0 with
                          | none => .fault .indexError
                          | some command_code =>
                            .ok { result with command_code := some command_code }
                      else
                        .ok result

/-- Packet construction as in the source's `__main__` fixtures:
`struct.pack(">HBH", MAGIC_NUMBER, packet_type, len(payload))` followed by
the payload and the XOR checksum byte of everything before it. -/
def build_packet (packet_type : Nat) (payload : Bytes) : Bytes :=
  let header := [MAGIC_NUMBER / 256, MAGIC_NUMBER % 256, packet_type,
                 payload.length / 256, payload.length % 256]
  let body := header ++ payload
  body ++ [calculate_checksum body]

/-- Taking `pl + 5` elements of a list with five explicit heads. -/
theorem take_add_five (pl b0 b1 b2 b3 b4 : Nat) (l : Bytes) :
    List.take (pl + 5) (b0 :: b1 :: b2 :: b3 :: b4 :: l) =
      b0 :: b1 :: b2 :: b3 :: b4 :: List.take pl l := rfl

/-- Characterization of `parse_packet` on a bytes input of length at least
five, with the header bytes explicit: every Python-level read succeeds and
the result is determined by the checks of the source in order. -/
theorem parse_packet_cons (b0 b1 b2 b3 b4 : Nat) (rest : Bytes) :
    parse_packet (.bytes (b0 :: b1 :: b2 :: b3 :: b4 :: rest)) =
      if 256 * b0 + b1 ≠ MAGIC_NUMBER then
        .parsingError (.invalidMagic (256 * b0 + b1))
      else if b2 ∉ ([0x01, 0x02, 0x03] : List Nat) then
        .parsingError (.unknownType b2)
      else if rest.length < 256 * b3 + b4 + 1 then
        .parsingError (.insufficientBody (2 + 1 + 2 + (256 * b3 + b4) + 1) (rest.length + 5))
      else if calculate_checksum (b0 :: b1 :: b2 :: b3 :: b4 :: rest.take (256 * b3 + b4)) ≠
          rest.getD (256 * b3 + b4) 0 then
        .parsingError (.checksumMismatch
          (calculate_checksum (b0 :: b1 :: b2 :: b3 :: b4 :: rest.take (256 * b3 + b4)))
          (rest.getD (256 * b3 + b4) 0))
      else if b2 = 0x02 then
        if 256 * b3 + b4 = 0 then .parsingError .emptyCommandPayload
        else .ok ⟨256 * b0 + b1, b2, 256 * b3 + b4, rest.take (256 * b3 + b4),
          rest.getD (256 * b3 + b4) 0, some (rest.getD 0 0)⟩
      else .ok ⟨256 * b0 + b1, b2, 256 * b3 + b4, rest.take (256 * b3 + b4),
        rest.getD (256 * b3 + b4) 0, none⟩ := by
  have hu2 : unpackBEu16 (pySlice (b0 :: b1 :: b2 :: b3 :: b4 :: rest) 0 2) =
      some (256 * b0 + b1) := rfl
  have hu35 : unpackBEu16 (pySlice (b0 :: b1 :: b2 :: b3 :: b4 :: rest) 3 5) =
      some (256 * b3 + b4) := rfl
  have hi2 : pyIndex (b0 :: b1 :: b2 :: b3 :: b4 :: rest) 2 = some b2 := rfl
  simp only [parse_packet, hu2, hu35, hi2, List.length_cons]
  rw [if_neg (by omega)]
  by_cases hm : 256 * b0 + b1 ≠ MAGIC_NUMBER
  · rw [if_pos hm, if_pos hm]
  rw [if_neg hm, if_neg hm]
  by_cases ht : b2 ∉ ([0x01, 0x02, 0x03] : List Nat)
  · rw [if_pos ht, if_pos ht]
  rw [if_neg ht, if_neg ht]
  by_cases hlen : rest.length < 256 * b3 + b4 + 1
  · rw [if_pos (by omega), if_pos hlen]
  rw [if_neg (by omega), if_neg hlen]
  have hplt : 256 * b3 + b4 < rest.length := by omega
  have hpay : pySlice (b0 :: b1 :: b2 :: b3 :: b4 :: rest) 5 (5 + (256 * b3 + b4)) =
      rest.take (256 * b3 + b4) := by
    show List.take (5 + (256 * b3 + b4) - 5) rest = List.take (256 * b3 + b4) rest
    rw [Nat.add_sub_cancel_left]
  have hchk : pySlice (b0 :: b1 :: b2 :: b3 :: b4 :: rest) 0 (5 + (256 * b3 + b4)) =
      b0 :: b1 :: b2 :: b3 :: b4 :: rest.take (256 * b3 + b4) := by
    show List.take (5 + (256 * b3 + b4) - 0) (b0 :: b1 :: b2 :: b3 :: b4 :: rest) =
      b0 :: b1 :: b2 :: b3 :: b4 :: rest.take (256 * b3 + b4)
    rw [Nat.sub_zero, Nat.add_comm, take_add_five]
  have hidx : pyIndex (b0 :: b1 :: b2 :: b3 :: b4 :: rest) (5 + (256 * b3 + b4)) =
      some (rest.getD (256 * b3 + b4) 0) := by
    show (([b0, b1, b2, b3, b4] : Bytes) ++ rest)[5 + (256 * b3 + b4)]? =
      some (rest.getD (256 * b3 + b4) 0)
    rw [List.getElem?_append_right (by simp)]
    have h55 : 5 + (256 * b3 + b4) - ([b0, b1, b2, b3, b4] : Bytes).length =
        256 * b3 + b4 := by simp
    rw [h55, List.getElem?_eq_getElem hplt, List.getD_eq_getElem rest 0 hplt]
  simp only [hpay, hchk, hidx]
  by_cases hck : calculate_checksum
      (b0 :: b1 :: b2 :: b3 :: b4 :: rest.take (256 * b3 + b4)) ≠
      rest.getD (256 * b3 + b4) 0
  · rw [if_pos hck, if_pos hck]
  rw [if_neg hck, if_neg hck]
  by_cases hcmd : b2 = 0x02
  · rw [if_pos hcmd, if_pos hcmd]
    by_cases h0 : 256 * b3 + b4 = 0
    · rw [if_pos (Or.inl h0), if_pos h0]
    · have hguard : ¬(256 * b3 + b4 = 0 ∨ (rest.take (256 * b3 + b4)).length < 1) := by
        simp only [List.length_take]
        omega
      rw [if_neg hguard, if_neg h0]
      have h00 : 0 < rest.length := by omega
      have hp0 : pyIndex (rest.take (256 * b3 + b4)) 0 = some (rest.getD 0 0) := by
        show (rest.take (256 * b3 + b4))[0]? = some (rest.getD 0 0)
        rw [List.getElem?_take, if_pos (by omega), List.getElem?_eq_getElem h00,
          List.getD_eq_getElem rest 0 h00]
      simp only [hp0]
  · rw [if_neg hcmd, if_neg hcmd]

/-- Setting index `pl + 5` of a list with five explicit heads. -/
theorem set_add_five (pl c b0 b1 b2 b3 b4 : Nat) (l : Bytes) :
    (b0 :: b1 :: b2 :: b3 :: b4 :: l).set (pl + 5) c =
      b0 :: b1 :: b2 :: b3 :: b4 :: (l.set pl c) := rfl

/-- Reading index `pl + 5` of a list with five explicit heads. -/
theorem getD_add_five (pl b0 b1 b2 b3 b4 : Nat) (l : Bytes) :
    (b0 :: b1 :: b2 :: b3 :: b4 :: l).getD (pl + 5) 0 = l.getD pl 0 := rfl

/-- Setting an element at index `n` does not change the first `n` elements. -/
theorem take_set_self (l : Bytes) (n : Nat) (a : Nat) :
    (l.set n a).take n = l.take n := by
  apply List.ext_getElem?
  intro m
  rw [List.getElem?_take, List.getElem?_take]
  by_cases hm : m < n
  · rw [if_pos hm, if_pos hm, List.getElem?_set_ne (by omega)]
  · rw [if_neg hm, if_neg hm]

/-- C1: on every input that is a bytes object, `parse_packet` returns a
packet or one of the categorized `ParsingError` values; no branch reaches
an uncategorized fault (`IndexError`, `struct.error`) and the `TypeError`
branch is not taken. -/
theorem parse_packet_bytes_categorized (data : Bytes) :
    (∃ p, parse_packet (.bytes data) = .ok p) ∨
    (∃ e, parse_packet (.bytes data) = .parsingError e) := by
  match data with
  | [] => exact Or.inr ⟨_, rfl⟩
  | [a] => exact Or.inr ⟨_, rfl⟩
  | [a, b] => exact Or.inr ⟨_, rfl⟩
  | [a, b, c] => exact Or.inr ⟨_, rfl⟩
  | [a, b, c, d] => exact Or.inr ⟨_, rfl⟩
  | b0 :: b1 :: b2 :: b3 :: b4 :: rest =>
    rw [parse_packet_cons]
    split_ifs <;> first | exact Or.inl ⟨_, rfl⟩ | exact Or.inr ⟨_, rfl⟩

/-- C2: a non-bytes input fails with the dedicated wrong-typed-input
kind (the `raise TypeError` guard at the top of `parse_packet`, the
specification's `InvalidInput`), an outcome distinct from every
`ParsingError` and from every success, and the guard precedes all
parsing of the buffer. -/
theorem parse_packet_nonbytes_distinct_invalid_input :
    parse_packet PyInput.nonBytes = ParseResult.invalidInput ∧
    (∀ e, ParseResult.invalidInput ≠ ParseResult.parsingError e) ∧
    (∀ p, ParseResult.invalidInput ≠ ParseResult.ok p) := by
  refine ⟨rfl, fun e h => ?_, fun p h => ?_⟩ <;> exact ParseResult.noConfusion h

/-- C3: every buffer shorter than five bytes fails with
`InsufficientHeader` carrying the buffer length, before any field read. -/
theorem parse_packet_short_insufficient_header (data : Bytes) (h : data.length < 5) :
    parse_packet (.bytes data) = .parsingError (.insufficientHeader data.length) := by
  simp only [parse_packet, if_pos h]

/-- Witness for C3 at the three-byte fixture of the source. -/
theorem parse_packet_short_insufficient_header_witness :
    parse_packet (.bytes [0xCA, 0xFE, 0x01]) = .parsingError (.insufficientHeader 3) :=
  parse_packet_short_insufficient_header [0xCA, 0xFE, 0x01] (by decide)

/-- C4: with a valid magic, a recognized type, and a declared payload
length that makes the buffer too short, `parse_packet` fails with
`InsufficientBody` whose expected field is exactly `5 + payload_length + 1`
and whose available field is the buffer length, before any payload or
checksum byte is indexed. -/
theorem parse_packet_insufficient_body (b0 b1 b2 b3 b4 : Nat) (rest : Bytes)
    (hm : 256 * b0 + b1 = MAGIC_NUMBER)
    (ht : b2 ∈ ([0x01, 0x02, 0x03] : List Nat))
    (hshort : (b0 :: b1 :: b2 :: b3 :: b4 :: rest).length < 5 + (256 * b3 + b4) + 1) :
    parse_packet (.bytes (b0 :: b1 :: b2 :: b3 :: b4 :: rest)) =
      .parsingError (.insufficientBody (5 + (256 * b3 + b4) + 1)
        (b0 :: b1 :: b2 :: b3 :: b4 :: rest).length) := by
  rw [parse_packet_cons, if_neg (not_not_intro hm), if_neg (not_not_intro ht),
    if_pos (by simp only [List.length_cons] at hshort ⊢; omega)]
  rfl

/-- Witness for C4: a five-byte buffer declaring a five-byte payload. -/
theorem parse_packet_insufficient_body_witness :
    parse_packet (.bytes [0xCA, 0xFE, 0x01, 0x00, 0x05]) =
      .parsingError (.insufficientBody 11 5) :=
  parse_packet_insufficient_body 0xCA 0xFE 0x01 0x00 0x05 []
    (by decide) (by decide) (by decide)

/-- Parsing a packet built by `build_packet` succeeds and yields exactly
the encoded fields; shared by the round-trip and size-limit claims. -/
theorem parse_build_packet (t : Nat) (payload : Bytes)
    (ht : t ∈ ([0x01, 0x02, 0x03] : List Nat))
    (hcmd : t = 0x02 → payload ≠ []) :
    parse_packet (.bytes (build_packet t payload)) =
      .ok ⟨MAGIC_NUMBER, t, payload.length, payload,
        calculate_checksum ([MAGIC_NUMBER / 256, MAGIC_NUMBER % 256, t,
          payload.length / 256, payload.length % 256] ++ payload),
        if t = 0x02 then some (payload.getD 0 0) else none⟩ := by
  have hb : build_packet t payload =
      (MAGIC_NUMBER / 256) :: (MAGIC_NUMBER % 256) :: t ::
      (payload.length / 256) :: (payload.length % 256) ::
      (payload ++ [calculate_checksum ([MAGIC_NUMBER / 256, MAGIC_NUMBER % 256, t,
        payload.length / 256, payload.length % 256] ++ payload)]) := rfl
  rw [hb, parse_packet_cons, Nat.div_add_mod MAGIC_NUMBER 256,
    Nat.div_add_mod payload.length 256]
  have hgd : ∀ x : Nat, (payload ++ [x]).getD payload.length 0 = x := by
    intro x
    rw [List.getD_eq_getElem?_getD, List.getElem?_append_right (le_refl _)]
    simp
  have hcs : calculate_checksum ((MAGIC_NUMBER / 256) :: (MAGIC_NUMBER % 256) :: t ::
      (payload.length / 256) :: (payload.length % 256) :: payload) =
      calculate_checksum ([MAGIC_NUMBER / 256, MAGIC_NUMBER % 256, t,
        payload.length / 256, payload.length % 256] ++ payload) := rfl
  rw [if_neg (not_not_intro rfl), if_neg (not_not_intro ht),
    if_neg (by simp), List.take_left payload, hgd, hcs,
    if_neg (not_not_intro rfl)]
  by_cases htc : t = 0x02
  · have hpos : 0 < payload.length := List.length_pos.mpr (hcmd htc)
    have hg0 : (payload ++ [calculate_checksum ([MAGIC_NUMBER / 256, MAGIC_NUMBER % 256, t,
        payload.length / 256, payload.length % 256] ++ payload)]).getD 0 0 =
        payload.getD 0 0 := by
      rw [List.getD_eq_getElem?_getD, List.getD_eq_getElem?_getD,
        List.getElem?_append_left hpos]
    rw [if_pos htc, if_pos htc, if_neg (by omega), hg0]
  · rw [if_neg htc, if_neg htc]

/-- C6: building a packet with valid magic, a recognized type, a payload of
byte values of length at most 65535 (non-empty when the type is CMD) and
the correct XOR checksum, then parsing it, succeeds and reproduces the
original type, payload length and payload exactly. -/
theorem parse_packet_roundtrip (t : Nat) (payload : Bytes)
    (ht : t ∈ ([0x01, 0x02, 0x03] : List Nat))
    (hlen : payload.length ≤ 65535)
    (hbytes : ∀ b ∈ payload, b < 256)
    (hcmd : t = 0x02 → payload ≠ []) :
    ∃ p, parse_packet (.bytes (build_packet t payload)) = .ok p ∧
      p.type = t ∧ p.payload_len = payload.length ∧ p.payload = payload :=
  ⟨_, parse_build_packet t payload ht hcmd, rfl, rfl, rfl⟩

/-- Witness for C6: a CMD packet with a one-byte payload round-trips. -/
theorem parse_packet_roundtrip_witness :
    ∃ p, parse_packet (.bytes (build_packet 0x02 [0x07])) = .ok p ∧
      p.type = 0x02 ∧ p.payload_len = ([0x07] : Bytes).length ∧
      p.payload = [0x07] :=
  parse_packet_roundtrip 0x02 [0x07] (by decide) (by decide)
    (by intro b hb; simp at hb; omega) (by intro h; decide)

/-- C9: no maximum payload size is enforced: a well-formed packet whose
declared payload length exceeds `MAX_PAYLOAD_SIZE` (up to 65535) still
parses successfully, and no `PError` kind reports a size limit — the
constant is never consulted by `parse_packet`. -/
theorem parse_packet_no_size_limit (t : Nat) (payload : Bytes)
    (ht : t ∈ ([0x01, 0x02, 0x03] : List Nat))
    (hbig : MAX_PAYLOAD_SIZE < payload.length)
    (hlen : payload.length ≤ 65535)
    (hcmd : t = 0x02 → payload ≠ []) :
    ∃ p, parse_packet (.bytes (build_packet t payload)) = .ok p ∧
      p.payload_len = payload.length ∧ MAX_PAYLOAD_SIZE < p.payload_len :=
  ⟨_, parse_build_packet t payload ht hcmd, rfl, hbig⟩

/-- Witness for C9: a DATA packet with a 1025-byte payload parses. -/
theorem parse_packet_no_size_limit_witness :
    ∃ p, parse_packet (.bytes (build_packet 0x01 (List.replicate 1025 0x07))) = .ok p ∧
      p.payload_len = (List.replicate 1025 (0x07 : Nat)).length ∧
      MAX_PAYLOAD_SIZE < p.payload_len :=
  parse_packet_no_size_limit 0x01 (List.replicate 1025 0x07) (by decide)
    (by rw [List.length_replicate]; decide) (by rw [List.length_replicate]; decide)
    (by intro h; exact absurd h (by decide))

/-- Every successful parse of a buffer of length at least five passed the
magic, type, total-length and checksum checks, and its payload length is
the declared big-endian length field. -/
theorem parse_packet_cons_ok (b0 b1 b2 b3 b4 : Nat) (rest : Bytes) (p : Packet)
    (hok : parse_packet (.bytes (b0 :: b1 :: b2 :: b3 :: b4 :: rest)) = .ok p) :
    256 * b0 + b1 = MAGIC_NUMBER ∧
    b2 ∈ ([0x01, 0x02, 0x03] : List Nat) ∧
    256 * b3 + b4 + 1 ≤ rest.length ∧
    calculate_checksum (b0 :: b1 :: b2 :: b3 :: b4 :: rest.take (256 * b3 + b4)) =
      rest.getD (256 * b3 + b4) 0 ∧
    p.payload_len = 256 * b3 + b4 := by
  rw [parse_packet_cons] at hok
  split_ifs at hok with h1 h2 h3 h4 h5 h6
  · refine ⟨not_not.mp h1, h2, by omega, not_not.mp h4, ?_⟩
    injection hok with h
    subst h
    rfl
  · refine ⟨not_not.mp h1, h2, by omega, not_not.mp h4, ?_⟩
    injection hok with h
    subst h
    rfl

/-- C5: on a buffer passing the header, magic, type and total-length
checks, success requires the byte at offset `5 + payload_length` to equal
the XOR-fold of `data[0 : 5 + payload_length]`, and a mismatch yields
`ChecksumMismatch` carrying the computed fold and the actual byte. -/
theorem parse_packet_checksum_gate (b0 b1 b2 b3 b4 : Nat) (rest : Bytes)
    (hm : 256 * b0 + b1 = MAGIC_NUMBER)
    (ht : b2 ∈ ([0x01, 0x02, 0x03] : List Nat))
    (hlen : 5 + (256 * b3 + b4) + 1 ≤ (b0 :: b1 :: b2 :: b3 :: b4 :: rest).length) :
    ((∃ p, parse_packet (.bytes (b0 :: b1 :: b2 :: b3 :: b4 :: rest)) = .ok p) →
      (b0 :: b1 :: b2 :: b3 :: b4 :: rest).getD (5 + (256 * b3 + b4)) 0 =
        calculate_checksum
          ((b0 :: b1 :: b2 :: b3 :: b4 :: rest).take (5 + (256 * b3 + b4)))) ∧
    ((b0 :: b1 :: b2 :: b3 :: b4 :: rest).getD (5 + (256 * b3 + b4)) 0 ≠
        calculate_checksum
          ((b0 :: b1 :: b2 :: b3 :: b4 :: rest).take (5 + (256 * b3 + b4))) →
      parse_packet (.bytes (b0 :: b1 :: b2 :: b3 :: b4 :: rest)) =
        .parsingError (.checksumMismatch
          (calculate_checksum
            ((b0 :: b1 :: b2 :: b3 :: b4 :: rest).take (5 + (256 * b3 + b4))))
          ((b0 :: b1 :: b2 :: b3 :: b4 :: rest).getD (5 + (256 * b3 + b4)) 0))) := by
  have hgd : (b0 :: b1 :: b2 :: b3 :: b4 :: rest).getD (5 + (256 * b3 + b4)) 0 =
      rest.getD (256 * b3 + b4) 0 := by
    rw [Nat.add_comm 5 (256 * b3 + b4)]
    exact getD_add_five (256 * b3 + b4) b0 b1 b2 b3 b4 rest
  have htk : (b0 :: b1 :: b2 :: b3 :: b4 :: rest).take (5 + (256 * b3 + b4)) =
      b0 :: b1 :: b2 :: b3 :: b4 :: rest.take (256 * b3 + b4) := by
    rw [Nat.add_comm 5 (256 * b3 + b4)]
    exact take_add_five (256 * b3 + b4) b0 b1 b2 b3 b4 rest
  rw [hgd, htk, parse_packet_cons, if_neg (not_not_intro hm), if_neg (not_not_intro ht),
    if_neg (by simp only [List.length_cons] at hlen; omega)]
  constructor
  · rintro ⟨p, hp⟩
    by_cases hck : calculate_checksum (b0 :: b1 :: b2 :: b3 :: b4 ::
        rest.take (256 * b3 + b4)) ≠ rest.getD (256 * b3 + b4) 0
    · rw [if_pos hck] at hp
      exact ParseResult.noConfusion hp
    · exact (not_not.mp hck).symm
  · intro hne
    rw [if_pos (Ne.symm hne)]

/-- Witness for C5: flipping the checksum byte of a minimal valid DATA
packet to zero is reported as a mismatch against the computed fold. -/
theorem parse_packet_checksum_gate_witness :
    parse_packet (.bytes [0xCA, 0xFE, 0x01, 0x00, 0x00, 0x00]) =
      .parsingError (.checksumMismatch 0x35 0x00) := by
  have h := (parse_packet_checksum_gate 0xCA 0xFE 0x01 0x00 0x00 [0x00]
    (by decide) (by decide) (by decide)).2 (by decide)
  exact h.trans (by decide)

/-- C7: for any buffer that parses successfully, replacing the byte at the
checksum position `5 + payload_length` with any different value turns the
outcome into a `ChecksumMismatch` failure. -/
theorem parse_packet_checksum_byte_sensitive (data : Bytes) (p : Packet) (c : Nat)
    (hok : parse_packet (.bytes data) = .ok p)
    (hne : c ≠ data.getD (5 + p.payload_len) 0) :
    parse_packet (.bytes (data.set (5 + p.payload_len) c)) =
      .parsingError (.checksumMismatch
        (calculate_checksum (data.take (5 + p.payload_len))) c) := by
  match data with
  | [] => exact ParseResult.noConfusion hok
  | [a] => exact ParseResult.noConfusion hok
  | [a, b] => exact ParseResult.noConfusion hok
  | [a, b, e] => exact ParseResult.noConfusion hok
  | [a, b, e, d] => exact ParseResult.noConfusion hok
  | b0 :: b1 :: b2 :: b3 :: b4 :: rest =>
    obtain ⟨hm, ht, hlen, hck, hpl⟩ :=
      parse_packet_cons_ok b0 b1 b2 b3 b4 rest p hok
    rw [hpl] at hne ⊢
    rw [Nat.add_comm 5 (256 * b3 + b4)] at hne ⊢
    rw [getD_add_five] at hne
    rw [set_add_five, take_add_five, parse_packet_cons]
    have hset : (rest.set (256 * b3 + b4) c).getD (256 * b3 + b4) 0 = c := by
      rw [List.getD_eq_getElem?_getD, List.getElem?_set_self (by omega)]
      rfl
    rw [List.length_set, take_set_self, hset, hck]
    rw [if_neg (not_not_intro hm), if_neg (not_not_intro ht), if_neg (by omega),
      if_pos (Ne.symm hne)]

/-- Witness for C7 at a minimal valid DATA packet whose checksum byte is
overwritten with zero. -/
theorem parse_packet_checksum_byte_sensitive_witness :
    parse_packet (.bytes (([0xCA, 0xFE, 0x01, 0x00, 0x00, 0x35] : Bytes).set
        (5 + (⟨0xCAFE, 0x01, 0, [], 0x35, none⟩ : Packet).payload_len) 0)) =
      .parsingError (.checksumMismatch
        (calculate_checksum (([0xCA, 0xFE, 0x01, 0x00, 0x00, 0x35] : Bytes).take
          (5 + (⟨0xCAFE, 0x01, 0, [], 0x35, none⟩ : Packet).payload_len))) 0) :=
  parse_packet_checksum_byte_sensitive [0xCA, 0xFE, 0x01, 0x00, 0x00, 0x35]
    ⟨0xCAFE, 0x01, 0, [], 0x35, none⟩ 0 (by decide) (by decide)

/-- C8: a CMD packet with declared payload length zero that passes the
magic, type, total-length and checksum checks fails with the categorized
`EmptyCommandPayload` error, not an out-of-range fault; and every
successful CMD decode has a non-empty payload and carries its first byte
as the command code. -/
theorem parse_packet_cmd_rules :
    (∀ (b0 b1 b3 b4 : Nat) (rest : Bytes),
      256 * b0 + b1 = MAGIC_NUMBER →
      256 * b3 + b4 = 0 →
      1 ≤ rest.length →
      calculate_checksum [b0, b1, 0x02, b3, b4] = rest.getD 0 0 →
      parse_packet (.bytes (b0 :: b1 :: 0x02 :: b3 :: b4 :: rest)) =
        .parsingError .emptyCommandPayload) ∧
    (∀ (data : Bytes) (p : Packet),
      parse_packet (.bytes data) = .ok p → p.type = 0x02 →
      p.payload ≠ [] ∧ p.command_code = some (p.payload.getD 0 0)) := by
  constructor
  · intro b0 b1 b3 b4 rest hm h0 hrest hchk
    rw [parse_packet_cons, h0]
    rw [if_neg (not_not_intro hm), if_neg (by decide), if_neg (by omega)]
    rw [List.take_zero, if_neg (not_not_intro hchk), if_pos rfl, if_pos rfl]
  · intro data p hok hp2
    match data, hok with
    | [], hok => exact ParseResult.noConfusion hok
    | [a], hok => exact ParseResult.noConfusion hok
    | [a, b], hok => exact ParseResult.noConfusion hok
    | [a, b, e], hok => exact ParseResult.noConfusion hok
    | [a, b, e, d], hok => exact ParseResult.noConfusion hok
    | b0 :: b1 :: b2 :: b3 :: b4 :: rest, hok =>
      rw [parse_packet_cons] at hok
      split_ifs at hok with h1 h2 h3 h4 h5 h6
      · injection hok with h
        subst h
        constructor
        · intro hnil
          have hl := congrArg List.length hnil
          simp only [List.length_take, List.length_nil] at hl
          omega
        · have hfirst : (rest.take (256 * b3 + b4)).getD 0 0 = rest.getD 0 0 := by
            rw [List.getD_eq_getElem?_getD, List.getD_eq_getElem?_getD,
              List.getElem?_take, if_pos (by omega)]
          simp only [hfirst]
      · injection hok with h
        subst h
        exact absurd hp2 h5

/-- Witness for C8: the source's empty-CMD fixture `CA FE 02 00 00 36`
fails with the categorized empty-command error. -/
theorem parse_packet_cmd_rules_witness :
    parse_packet (.bytes [0xCA, 0xFE, 0x02, 0x00, 0x00, 0x36]) =
      .parsingError .emptyCommandPayload :=
  parse_packet_cmd_rules.1 0xCA 0xFE 0x00 0x00 [0x36]
    (by decide) (by decide) (by decide) (by decide)

/-- C10: for every successful decode, the XOR-fold of the whole consumed
packet — header, payload and the checksum byte — is zero. -/
theorem parse_packet_success_full_fold_zero (data : Bytes) (p : Packet)
    (hok : parse_packet (.bytes data) = .ok p) :
    calculate_checksum (data.take (5 + p.payload_len + 1)) = 0 := by
  match data with
  | [] => exact ParseResult.noConfusion hok
  | [a] => exact ParseResult.noConfusion hok
  | [a, b] => exact ParseResult.noConfusion hok
  | [a, b, e] => exact ParseResult.noConfusion hok
  | [a, b, e, d] => exact ParseResult.noConfusion hok
  | b0 :: b1 :: b2 :: b3 :: b4 :: rest =>
    obtain ⟨hm, ht, hlen, hck, hpl⟩ :=
      parse_packet_cons_ok b0 b1 b2 b3 b4 rest p hok
    rw [hpl]
    rw [show 5 + (256 * b3 + b4) + 1 = (256 * b3 + b4 + 1) + 5 by omega]
    rw [take_add_five]
    have h2 : rest.take (256 * b3 + b4 + 1) =
        rest.take (256 * b3 + b4) ++ [rest.getD (256 * b3 + b4) 0] := by
      rw [List.take_succ]
      congr 1
      rw [List.getElem?_eq_getElem (by omega : 256 * b3 + b4 < rest.length),
        List.getD_eq_getElem rest 0 (by omega : 256 * b3 + b4 < rest.length)]
      rfl
    rw [h2]
    have h3 : calculate_checksum (b0 :: b1 :: b2 :: b3 :: b4 ::
        (rest.take (256 * b3 + b4) ++ [rest.getD (256 * b3 + b4) 0])) =
        calculate_checksum ((b0 :: b1 :: b2 :: b3 :: b4 ::
          rest.take (256 * b3 + b4)) ++ [rest.getD (256 * b3 + b4) 0]) := rfl
    rw [h3, calculate_checksum, List.foldl_append]
    show calculate_checksum (b0 :: b1 :: b2 :: b3 :: b4 ::
      rest.take (256 * b3 + b4)) ^^^ rest.getD (256 * b3 + b4) 0 = 0
    rw [hck, Nat.xor_self]

/-- Witness for C10 at a minimal valid DATA packet. -/
theorem parse_packet_success_full_fold_zero_witness :
    calculate_checksum (([0xCA, 0xFE, 0x01, 0x00, 0x00, 0x35] : Bytes).take
      (5 + (⟨0xCAFE, 0x01, 0, [], 0x35, none⟩ : Packet).payload_len + 1)) = 0 :=
  parse_packet_success_full_fold_zero [0xCA, 0xFE, 0x01, 0x00, 0x00, 0x35]
    ⟨0xCAFE, 0x01, 0, [], 0x35, none⟩ (by decide)

/-- Concrete scenario from the source's `__main__`: the DATA packet whose
payload is the fourteen bytes of the demo string decodes successfully with
checksum `0x2B`. -/
theorem parse_packet_demo_fixture : parse_packet (.bytes (build_packet 0x01
      [0x48, 0x65, 0x6C, 0x6C, 0x6F, 0x20, 0x46, 0x75, 0x7A, 0x7A,
       0x69, 0x6E, 0x67, 0x21])) =
    .ok ⟨0xCAFE, 0x01, 14,
      [0x48, 0x65, 0x6C, 0x6C, 0x6F, 0x20, 0x46, 0x75, 0x7A, 0x7A,
       0x69, 0x6E, 0x67, 0x21], 0x2B, none⟩ := by decide
